import Mathlib

/-!
A shallow embedding of the `SafePointer<T>` class of `safeptr.hpp`.

A `SafePointer` value models the three data members of the C++ class:
`ptr_` (a pointer, with address 0 standing for `nullptr`), `allocated_`
and `size_`.  The contents of the owned region are carried alongside in
`mem_` as a list of cells; a cell is `none` while its byte pattern is
indeterminate (freshly `malloc`ed, or the tail grown by `realloc`) and
`some v` once a value has been stored.

The C allocator is external to the translated code, so every operation
that calls `malloc` or `realloc` takes the allocator's reply as an extra
argument `r : Nat`: the address returned, with `0` meaning the call
failed, exactly as the C++ code tests `if (!ptr_)` / `if (!new_ptr)`.

Operations that can `throw` return the state of the object at the moment
of the throw together with an `Option Err`, matching C++ semantics where
the object survives the exception with whatever mutations had already
happened.
-/

/-- `size_t` and pointer arithmetic is modulo `2 ^ 64` in the model. -/
def ptrW : Nat := 2 ^ 64

/-- `a - b` computed in `size_t` arithmetic (wrapping subtraction). -/
def subW (a b : Nat) : Nat := (a % ptrW + (ptrW - b % ptrW)) % ptrW

/-- The exceptions thrown by `safeptr.hpp`. -/
inductive Err where
  | invalid_argument (msg : String)
  | runtime_error (msg : String)
  deriving DecidableEq

/-- The data members of `SafePointer<T>` (safeptr.hpp:10-13), together
with `mem_`, the contents of the region that `ptr_` addresses.  In the
source, `ptr_` and `allocated_` have member initializers while `size_`
does not. -/
structure SafePointer (T : Type) where
  ptr_ : Nat
  mem_ : List (Option T)
  allocated_ : Bool
  size_ : Nat
  deriving DecidableEq

variable {T : Type}

/-- `SafePointer() = default` (safeptr.hpp:15): `ptr_` starts null and
`allocated_` false from their member initializers; `size_` has none, so
its indeterminate initial value is the parameter `junk`. -/
def SafePointer.mkDefault (T : Type) (junk : Nat) : SafePointer T :=
  ⟨0, [], false, junk⟩

/-- `is_allocated()` (safeptr.hpp:75). -/
def SafePointer.is_allocated (s : SafePointer T) : Bool := s.allocated_

/-- `get()` (safeptr.hpp:76), returning the raw pointer (0 = null). -/
def SafePointer.get (s : SafePointer T) : Nat := s.ptr_

/-- `size()` (safeptr.hpp:77). -/
def SafePointer.size (s : SafePointer T) : Nat := s.size_

/-- `is_empty()` (safeptr.hpp:78). -/
def SafePointer.is_empty (s : SafePointer T) : Bool :=
  s.allocated_ && s.size_ == 0

/-- `deallocate()` (safeptr.hpp:66-73): the spec's `release()`. -/
def SafePointer.deallocate (s : SafePointer T) : SafePointer T :=
  if s.allocated_ then ⟨0, [], false, 0⟩ else s

/-- `realloc`'s effect on region contents: the first `min mem.length n`
cells are preserved and any cells beyond the old length are
indeterminate. -/
def resizeCells (mem : List (Option T)) (n : Nat) : List (Option T) :=
  mem.take n ++ List.replicate (n - mem.length) none

/-- The tail of `allocate` on an unallocated instance (safeptr.hpp:27-32):
`ptr_ = malloc(...)`, throw if null, else record size and flag.  `r` is
malloc's reply; note that on failure `ptr_` has already been overwritten
with the null result before the throw. -/
def SafePointer.allocFresh (s : SafePointer T) (r n : Nat) :
    SafePointer T × Option Err :=
  if r = 0 then
    ({ s with ptr_ := 0, mem_ := [] },
     some (Err.runtime_error "Memory allocation failed"))
  else (⟨r, List.replicate n none, true, n⟩, none)

/-- The tail of `reallocate` on an allocated instance (safeptr.hpp:58-63):
`realloc` preserving the overlapping prefix of the contents; on failure
(`r = 0`) nothing has been mutated when the throw happens. -/
def SafePointer.reallocStep (s : SafePointer T) (r n : Nat) :
    SafePointer T × Option Err :=
  if r = 0 then (s, some (Err.runtime_error "Memory reallocation failed"))
  else ({ s with ptr_ := r, mem_ := resizeCells s.mem_ n, size_ := n }, none)

/-- `allocate(size)` (safeptr.hpp:19-33).  When already allocated it
delegates to `reallocate(size)`; since at that point `size ≠ 0` and
`allocated_` both hold, the delegation lands exactly in `reallocStep`
(the mutual delegation of the two C++ methods is unfolded here). -/
def SafePointer.allocate (s : SafePointer T) (r n : Nat) :
    SafePointer T × Option Err :=
  if n = 0 then (s, some (Err.invalid_argument "Cannot allocate 0 elements"))
  else if s.allocated_ then s.reallocStep r n
  else s.allocFresh r n

/-- `reallocate(size)` (safeptr.hpp:50-64): the spec's `resize_storage`.
When not allocated it delegates to `allocate(size)`, which with `size ≠ 0`
and `!allocated_` lands exactly in `allocFresh`. -/
def SafePointer.reallocate (s : SafePointer T) (r n : Nat) :
    SafePointer T × Option Err :=
  if n = 0 then (s, some (Err.invalid_argument "Cannot reallocate to 0 elements"))
  else if s.allocated_ then s.reallocStep r n
  else s.allocFresh r n

/-- `clear(doDeallocate)` (safeptr.hpp:80-87).  With `doDeallocate =
false` only the pointer is nulled and the size reset; the region itself
is detached without being returned to the allocator, so its contents are
no longer reachable through this instance. -/
def SafePointer.clear (s : SafePointer T) (doDeallocate : Bool) :
    SafePointer T :=
  if doDeallocate then s.deallocate
  else { s with ptr_ := 0, mem_ := [], size_ := 0 }

/-- `resize(size)` (safeptr.hpp:89-96). -/
def SafePointer.resize (s : SafePointer T) (r n : Nat) :
    SafePointer T × Option Err :=
  if n = s.size_ then (s, none)
  else if n = 0 then (s.deallocate, none)
  else s.reallocate r n

/-- `std::copy` of `vals` into `mem` starting at cell `off`.  Writes that
would fall outside the region are out of bounds in C++ and are not
modelled. -/
def writeCells : List (Option T) → Nat → List (Option T) → List (Option T)
  | mem, _, [] => mem
  | [], _, _ :: _ => []
  | _ :: ms, 0, v :: vs => v :: writeCells ms 0 vs
  | m :: ms, o + 1, vs => m :: writeCells ms o vs

/-- `clone()` (safeptr.hpp:115-120): default-constructs a temporary
(whose `size_` is the indeterminate `junk`), calls `allocate(size_)` on
it (`r` being malloc's reply) and copies the source's first `size_`
cells into it.  If `allocate` throws, the exception propagates out of
`clone` and no object is produced. -/
def SafePointer.clone (s : SafePointer T) (r junk : Nat) :
    Option (SafePointer T) × Option Err :=
  match (SafePointer.mkDefault T junk).allocate r s.size_ with
  | (t, none) =>
      (some { t with mem_ := writeCells t.mem_ 0 (s.mem_.take s.size_) }, none)
  | (_, some e) => (none, some e)

/-- `compare(other)` (safeptr.hpp:122-124): address identity, not content
equality. -/
def SafePointer.compare (s o : SafePointer T) : Bool := s.ptr_ == o.ptr_

/-- `set(ptr)` (safeptr.hpp:126-132): adopt an external region at address
`p` whose contents are `pm`.  `size_` is only touched indirectly, by the
`deallocate()` that runs when the instance was allocated. -/
def SafePointer.set (s : SafePointer T) (p : Nat) (pm : List (Option T)) :
    SafePointer T :=
  let s1 := if s.allocated_ then s.deallocate else s
  { s1 with ptr_ := p, mem_ := pm, allocated_ := p != 0 }

/-- `set_value(value, idx)` (safeptr.hpp:156-161): unchecked write at
`idx`. -/
def SafePointer.set_value (s : SafePointer T) (v : T) (idx : Nat) :
    SafePointer T × Option Err :=
  if !s.allocated_ || s.ptr_ == 0 then
    (s, some (Err.runtime_error "Cannot set value: memory is not allocated"))
  else ({ s with mem_ := writeCells s.mem_ idx [some v] }, none)

/-- `set_values(src_begin, src_end, dst_begin)` (safeptr.hpp:163-180).
`srcMem` is the caller's memory, read at the element addresses
`srcBegin, …, srcEnd - 1`; the pointer subtractions are `size_t`
arithmetic, hence `subW`. -/
def SafePointer.set_values (s : SafePointer T) (srcMem : Nat → T)
    (srcBegin srcEnd dstBegin : Nat) : SafePointer T × Option Err :=
  if !s.allocated_ || s.ptr_ == 0 then
    (s, some (Err.runtime_error "Cannot set values: memory is not allocated"))
  else if srcBegin == 0 || srcEnd == 0 || dstBegin == 0 then
    (s, some (Err.invalid_argument "Source and destination pointers cannot be null"))
  else
    let src_count := subW srcEnd srcBegin
    let dst_count := subW s.size_ (subW dstBegin s.ptr_)
    if src_count > dst_count then
      (s, some (Err.invalid_argument "Source range exceeds destination space"))
    else
      ({ s with
          mem_ := writeCells s.mem_ (subW dstBegin s.ptr_)
            ((List.range src_count).map fun i => some (srcMem (srcBegin + i))) },
       none)

/-- `move(other)` (safeptr.hpp:142-151) for distinct instances, i.e. the
`this != &other` branch: release the own region, take over `other`'s
pointer, contents and flag — the body never assigns `other.size_` to
`this->size_` — then empty `other`.  When `this == &other` the body is
skipped entirely, so self-move is the identity. -/
def SafePointer.move (dst src : SafePointer T) :
    SafePointer T × SafePointer T :=
  let d1 := dst.deallocate
  ({ d1 with ptr_ := src.ptr_, mem_ := src.mem_, allocated_ := src.allocated_ },
   { src with ptr_ := 0, mem_ := [], allocated_ := false, size_ := 0 })

/-- C1: `move(other)` does empty the source, but the destination does not
end up with the source's prior `size()`.  Destination freshly
default-constructed (its indeterminate `size_` taken as 0), source an
allocated 3-element buffer: after the move the destination reports
`is_allocated() == true` yet `size() == 0`, while the source's prior size
was 3, because the body of `move` never assigns `other.size_` to
`this->size_`. -/
theorem C1_move_loses_size :
    (((SafePointer.mkDefault Nat 0).allocate 100 3).1.size = 3 ∧
     ((SafePointer.mkDefault Nat 0).allocate 100 3).2 = none) ∧
    (SafePointer.move (SafePointer.mkDefault Nat 0)
        ((SafePointer.mkDefault Nat 0).allocate 100 3).1).1.is_allocated = true ∧
    (SafePointer.move (SafePointer.mkDefault Nat 0)
        ((SafePointer.mkDefault Nat 0).allocate 100 3).1).1.size = 0 ∧
    (SafePointer.move (SafePointer.mkDefault Nat 0)
        ((SafePointer.mkDefault Nat 0).allocate 100 3).1).2.is_allocated = false ∧
    (SafePointer.move (SafePointer.mkDefault Nat 0)
        ((SafePointer.mkDefault Nat 0).allocate 100 3).1).2.size = 0 := by
  decide

/-- C2: the default constructor initializes `ptr_` and `allocated_` but
leaves `size_` indeterminate, so a freshly default-constructed instance
with a nonzero junk value (here 5) has `allocated() == false` while
`size()` reports 5, violating the claimed invariant. -/
theorem C2_default_ctor_size_indeterminate :
    (SafePointer.mkDefault Nat 5).is_allocated = false ∧
    (SafePointer.mkDefault Nat 5).get = 0 ∧
    (SafePointer.mkDefault Nat 5).size = 5 := by
  decide

/-- C3 counterexample: from the state reached by `allocate(5)` followed by
`clear(false)` — allocated, null pointer, size 0 — `resize(0)` hits the
`size == size_` early return and leaves `is_allocated() == true`, whereas
`release()` (the source's `deallocate()`) yields an unallocated state; the
two results differ. -/
theorem C3_resize0_differs_from_release_after_clear :
    ((((SafePointer.mkDefault Nat 0).allocate 100 5).1.clear false).resize 1 0).1.is_allocated
        = true ∧
    (((SafePointer.mkDefault Nat 0).allocate 100 5).1.clear false).deallocate.is_allocated
        = false ∧
    ((((SafePointer.mkDefault Nat 0).allocate 100 5).1.clear false).resize 1 0).1
        ≠ (((SafePointer.mkDefault Nat 0).allocate 100 5).1.clear false).deallocate := by
  decide

/-- C3 (amended): on every state satisfying the unallocated-implies-zero-
size invariant and not in the detached `clear(false)` state (allocated
with size 0), `resize(0)` produces exactly the state `release()` produces,
with `is_allocated() == false` and `size() == 0`, and both calls are
idempotent under repetition; the `clear(false)` state itself is excluded,
where `resize(0)` is a no-op that keeps `is_allocated() == true`. -/
theorem C3_resize0_eq_release (s : SafePointer T) (r r' : Nat)
    (hinv : s.allocated_ = false → s.size_ = 0)
    (hnd : ¬(s.allocated_ = true ∧ s.size_ = 0)) :
    (s.resize r 0).1 = s.deallocate ∧ (s.resize r 0).2 = none ∧
    (s.resize r 0).1.is_allocated = false ∧ (s.resize r 0).1.size = 0 ∧
    ((s.resize r 0).1.resize r' 0).1 = (s.resize r 0).1 ∧
    s.deallocate.deallocate = s.deallocate := by
  cases h : s.allocated_ with
  | false =>
    have h0 : s.size_ = 0 := hinv h
    simp [SafePointer.resize, SafePointer.deallocate, SafePointer.is_allocated,
      SafePointer.size, h, h0]
  | true =>
    have h0 : s.size_ ≠ 0 := fun hs => hnd ⟨h, hs⟩
    simp [SafePointer.resize, SafePointer.deallocate, SafePointer.is_allocated,
      SafePointer.size, h, h0, Ne.symm h0]

theorem C3_resize0_eq_release_witness :
    ((SafePointer.mk 100 [some 1] true 1 : SafePointer Nat).resize 55 0).1
        = (SafePointer.mk 100 [some 1] true 1 : SafePointer Nat).deallocate ∧
    ((SafePointer.mk 100 [some 1] true 1 : SafePointer Nat).resize 55 0).1.is_allocated
        = false ∧
    ((SafePointer.mk 100 [some 1] true 1 : SafePointer Nat).resize 55 0).1.size = 0 := by
  have h := C3_resize0_eq_release (SafePointer.mk 100 [some 1] true 1) 55 7
    (by decide) (by decide)
  exact ⟨h.1, h.2.2.1, h.2.2.2.1⟩

/-- C4: for every allocated buffer, `clear(false)` leaves
`is_allocated() == true`, `size() == 0` and a null `get()`, while
`clear(true)` leaves the buffer unallocated with `size() == 0`. -/
theorem C4_clear (s : SafePointer T) (h : s.allocated_ = true) :
    (s.clear false).is_allocated = true ∧ (s.clear false).size = 0 ∧
    (s.clear false).get = 0 ∧
    (s.clear true).is_allocated = false ∧ (s.clear true).size = 0 := by
  simp [SafePointer.clear, SafePointer.deallocate, SafePointer.is_allocated,
    SafePointer.size, SafePointer.get, h]

theorem C4_clear_witness :
    (SafePointer.mk 7 [some 1] true 1 : SafePointer Nat).allocated_ = true ∧
    ((SafePointer.mk 7 [some 1] true 1 : SafePointer Nat).clear false).is_allocated = true ∧
    ((SafePointer.mk 7 [some 1] true 1 : SafePointer Nat).clear false).size = 0 ∧
    ((SafePointer.mk 7 [some 1] true 1 : SafePointer Nat).clear false).get = 0 ∧
    ((SafePointer.mk 7 [some 1] true 1 : SafePointer Nat).clear true).is_allocated = false ∧
    ((SafePointer.mk 7 [some 1] true 1 : SafePointer Nat).clear true).size = 0 :=
  ⟨rfl, C4_clear (SafePointer.mk 7 [some 1] true 1) rfl⟩

/-- C5: on an allocated buffer, when `realloc` cannot satisfy a resize to
`n > 0` elements (allocator reply 0), `reallocate` throws
`ReallocationFailure` (`runtime_error "Memory reallocation failed"`) and
the instance is left exactly as it was: same pointer, same contents, same
count, same flag. -/
theorem C5_reallocate_failure_preserves_state (s : SafePointer T) (n : Nat)
    (ha : s.allocated_ = true) (hn : n ≠ 0) :
    s.reallocate 0 n = (s, some (Err.runtime_error "Memory reallocation failed")) := by
  simp [SafePointer.reallocate, SafePointer.reallocStep, ha, hn]

theorem C5_reallocate_failure_witness :
    (SafePointer.mk 7 [some 1] true 1 : SafePointer Nat).allocated_ = true ∧ (2 : Nat) ≠ 0 ∧
    (SafePointer.mk 7 [some 1] true 1 : SafePointer Nat).reallocate 0 2 =
      (SafePointer.mk 7 [some 1] true 1,
       some (Err.runtime_error "Memory reallocation failed")) :=
  ⟨rfl, by decide,
   C5_reallocate_failure_preserves_state (SafePointer.mk 7 [some 1] true 1) 2 rfl (by decide)⟩

/-- C6: for `n > 0` a successful `allocate(n)` (allocator reply nonzero)
yields `is_allocated() == true` and `size() == n` with no exception, on
any prior state; and `allocate(0)` throws `InvalidArgument` leaving the
instance untouched — in particular a previously empty instance stays
empty. -/
theorem C6_allocate (s : SafePointer T) (r n : Nat) (hr : r ≠ 0) (hn : n ≠ 0) :
    ((s.allocate r n).1.is_allocated = true ∧ (s.allocate r n).1.size = n ∧
      (s.allocate r n).2 = none) ∧
    s.allocate r 0 = (s, some (Err.invalid_argument "Cannot allocate 0 elements")) := by
  refine ⟨?_, by simp [SafePointer.allocate]⟩
  cases h : s.allocated_ <;>
    simp [SafePointer.allocate, SafePointer.reallocStep, SafePointer.allocFresh,
      SafePointer.is_allocated, SafePointer.size, h, hr, hn]

theorem C6_allocate_witness :
    (100 : Nat) ≠ 0 ∧ (4 : Nat) ≠ 0 ∧
    (((SafePointer.mkDefault Nat 0).allocate 100 4).1.is_allocated = true ∧
      ((SafePointer.mkDefault Nat 0).allocate 100 4).1.size = 4 ∧
      ((SafePointer.mkDefault Nat 0).allocate 100 4).2 = none) ∧
    (SafePointer.mkDefault Nat 0).allocate 100 0 =
      (SafePointer.mkDefault Nat 0,
       some (Err.invalid_argument "Cannot allocate 0 elements")) :=
  ⟨by decide, by decide, C6_allocate (SafePointer.mkDefault Nat 0) 100 4 (by decide) (by decide)⟩

theorem subW_add_left (x y : Nat) (h : x + y < ptrW) : subW (x + y) x = y := by
  have hx : x < ptrW := by omega
  have hy : y < ptrW := by omega
  unfold subW
  rw [Nat.mod_eq_of_lt h, Nat.mod_eq_of_lt hx]
  have h3 : x + y + (ptrW - x) = ptrW + y := by omega
  rw [h3, Nat.add_mod_left, Nat.mod_eq_of_lt hy]

theorem subW_of_le (a b : Nat) (hle : b ≤ a) (ha : a < ptrW) : subW a b = a - b := by
  obtain ⟨y, rfl⟩ : ∃ y, a = b + y := ⟨a - b, by omega⟩
  rw [subW_add_left b y ha]
  omega

theorem take_resizeCells (mem : List (Option T)) (n : Nat) :
    (resizeCells mem n).take (min mem.length n) = mem.take (min mem.length n) := by
  unfold resizeCells
  rw [List.take_append_of_le_length (by rw [List.length_take]; omega),
    List.take_take]
  congr 1
  omega

/-- C8: on an allocated buffer of size `m` whose region holds `m` cells, a
successful `resize(n)` for `n > 0`, `n ≠ m` (allocator reply nonzero)
yields `size() == n` with no exception and preserves the first
`min m n` cells of the contents; and `resize(m)` is a no-op. -/
theorem C8_resize (s : SafePointer T) (r n : Nat)
    (ha : s.allocated_ = true) (hlen : s.mem_.length = s.size_)
    (hr : r ≠ 0) (hn : n ≠ 0) :
    (n ≠ s.size_ →
      (s.resize r n).1.size = n ∧ (s.resize r n).2 = none ∧
      (s.resize r n).1.mem_.take (min s.size_ n) = s.mem_.take (min s.size_ n)) ∧
    s.resize r s.size_ = (s, none) := by
  refine ⟨fun hne => ?_, by simp [SafePointer.resize]⟩
  have hres : s.resize r n = s.reallocate r n := by
    simp [SafePointer.resize, hn, hne]
  have hre : s.reallocate r n =
      ({ s with ptr_ := r, mem_ := resizeCells s.mem_ n, size_ := n }, none) := by
    simp [SafePointer.reallocate, SafePointer.reallocStep, ha, hr, hn]
  rw [hres, hre]
  refine ⟨rfl, rfl, ?_⟩
  have := take_resizeCells s.mem_ n
  rwa [hlen] at this

theorem C8_resize_witness :
    ((SafePointer.mk 100 [some 1, some 2, some 3] true 3 : SafePointer Nat).resize 200 5).1.size
        = 5 ∧
    ((SafePointer.mk 100 [some 1, some 2, some 3] true 3 : SafePointer Nat).resize 200 5).2
        = none ∧
    ((SafePointer.mk 100 [some 1, some 2, some 3] true 3 : SafePointer Nat).resize 200 5).1.mem_.take
        (min 3 5)
      = [some 1, some 2, some 3].take (min 3 5) := by
  exact (C8_resize (SafePointer.mk 100 [some 1, some 2, some 3] true 3) 200 5
    rfl rfl (by decide) (by decide)).1 (by decide)

theorem writeCells_zero_full (vs : List (Option T)) :
    ∀ xs : List (Option T), vs.length = xs.length → writeCells xs 0 vs = vs := by
  induction vs with
  | nil =>
    intro xs h
    cases xs with
    | nil => rfl
    | cons x xs' => simp at h
  | cons v vs' ih =>
    intro xs h
    cases xs with
    | nil => simp at h
    | cons x xs' =>
      simp only [List.length_cons, Nat.add_right_cancel_iff] at h
      simp [writeCells, ih xs' h]

/-- C9: on an allocated buffer holding `size() > 0` cells, a successful
`clone()` (fresh nonzero allocator reply `a`, distinct from the source's
address) produces a new instance at address `a` with the same count and
element-wise equal contents and raises no exception; `compare` between
source and clone is false since the regions are distinct, the source
object is not written by `clone` (it is a `const` method, modelled as a
pure function of the source), and a subsequent `set_value` on the clone
writes through the clone's address, which differs from the source's, so
it cannot change the original's contents. -/
theorem C9_clone (s : SafePointer T) (a junk : Nat) (ha : a ≠ 0)
    (hfresh : a ≠ s.ptr_) (hs : s.size_ ≠ 0) (hlen : s.mem_.length = s.size_) :
    s.clone a junk = (some (SafePointer.mk a s.mem_ true s.size_), none) ∧
    (SafePointer.mk a s.mem_ true s.size_ : SafePointer T).size = s.size ∧
    s.compare (SafePointer.mk a s.mem_ true s.size_) = false ∧
    ∀ (v : T) (i : Nat),
      ((SafePointer.mk a s.mem_ true s.size_ : SafePointer T).set_value v i).1.ptr_
        ≠ s.ptr_ := by
  have halloc : (SafePointer.mkDefault T junk).allocate a s.size_ =
      (⟨a, List.replicate s.size_ none, true, s.size_⟩, none) := by
    simp [SafePointer.allocate, SafePointer.mkDefault, SafePointer.allocFresh, hs, ha]
  refine ⟨?_, rfl, ?_, ?_⟩
  · unfold SafePointer.clone
    rw [halloc]
    have htake : s.mem_.take s.size_ = s.mem_ := by
      rw [← hlen]; exact List.take_length s.mem_
    simp only [htake]
    simp [writeCells_zero_full s.mem_ (List.replicate s.size_ none) (by simp [hlen])]
  · simp [SafePointer.compare]
    exact fun h => hfresh h.symm
  · intro v i
    unfold SafePointer.set_value
    by_cases h : (a == 0) = true
    · simp at h; exact absurd h ha
    · simp [h]
      exact fun hc => hfresh hc

theorem C9_clone_witness :
    (SafePointer.mk 100 [some 1, some 2] true 2 : SafePointer Nat).clone 200 7 =
      (some (SafePointer.mk 200 [some 1, some 2] true 2), none) ∧
    (SafePointer.mk 100 [some 1, some 2] true 2 : SafePointer Nat).compare
      (SafePointer.mk 200 [some 1, some 2] true 2) = false := by
  have h := C9_clone (SafePointer.mk 100 [some 1, some 2] true 2) 200 7
    (by decide) (by decide) (by decide) rfl
  exact ⟨h.1, h.2.2.1⟩

/-- C7: `set_values(srcBegin, srcEnd, dstBegin)` on a buffer whose pointer
is a nonzero `p`, with `dstBegin` at offset `d ≤ size()` inside the
region and a source span of `len` elements starting at a nonzero
`srcBegin` (all addresses below `2^64`): when the buffer is unallocated
every call throws `NotAllocated`; when allocated, a null endpoint throws
`InvalidArgument`; otherwise the destination capacity is `size() - d` and
a span with `len > size() - d` throws `InvalidArgument`, while
`len ≤ size() - d` copies the span element-wise to offset `d`. -/
theorem C7_set_values (srcMem : Nat → T) (s : SafePointer T)
    (p d len srcBegin : Nat) (hp : s.ptr_ = p) (hp0 : p ≠ 0)
    (hb0 : srcBegin ≠ 0) (hWd : p + d < ptrW) (hWs : srcBegin + len < ptrW)
    (hd : d ≤ s.size_) (hsW : s.size_ < ptrW) :
    (s.allocated_ = false → ∀ a b c,
      s.set_values srcMem a b c =
        (s, some (Err.runtime_error "Cannot set values: memory is not allocated"))) ∧
    (s.allocated_ = true → ∀ a b c, (a = 0 ∨ b = 0 ∨ c = 0) →
      s.set_values srcMem a b c =
        (s, some (Err.invalid_argument "Source and destination pointers cannot be null"))) ∧
    (s.allocated_ = true → len > s.size_ - d →
      s.set_values srcMem srcBegin (srcBegin + len) (p + d) =
        (s, some (Err.invalid_argument "Source range exceeds destination space"))) ∧
    (s.allocated_ = true → len ≤ s.size_ - d →
      s.set_values srcMem srcBegin (srcBegin + len) (p + d) =
        ({ s with mem_ := (writeCells s.mem_ d
            ((List.range len).map fun i => some (srcMem (srcBegin + i)))) }, none)) := by
  have hoffp : subW (p + d) p = d := subW_add_left p d hWd
  have hsrc : subW (srcBegin + len) srcBegin = len := subW_add_left srcBegin len hWs
  have hcap : subW s.size_ d = s.size_ - d := subW_of_le s.size_ d hd hsW
  have hsl : srcBegin + len ≠ 0 := by omega
  have hpd : p + d ≠ 0 := by omega
  refine ⟨fun hf a b c => ?_, fun ht a b c habc => ?_, fun ht hgt => ?_, fun ht hle => ?_⟩
  · simp [SafePointer.set_values, hf]
  · rcases habc with h0 | h0 | h0 <;>
      simp [SafePointer.set_values, ht, hp, hp0, h0]
  · simp [SafePointer.set_values, ht, hp, hp0, hb0, hsl, hpd, hoffp, hsrc, hcap, hgt]
  · have hng : ¬(s.size_ - d < len) := by omega
    simp [SafePointer.set_values, ht, hp, hp0, hb0, hsl, hpd, hoffp, hsrc, hcap, hng]

theorem C7_set_values_witness :
    (SafePointer.mk 100 [some 0, some 0, some 0] true 3 : SafePointer Nat).set_values
        (fun a => a) 10 (10 + 2) (100 + 1) =
      (SafePointer.mk 100 [some 0, some 10, some 11] true 3, none) := by
  have h := (C7_set_values (fun a => a)
      (SafePointer.mk 100 [some 0, some 0, some 0] true 3) 100 1 2 10
      rfl (by decide) (by decide) (by norm_num [ptrW]) (by norm_num [ptrW])
      (by decide) (by norm_num [ptrW])).2.2.2 rfl (by decide)
  rw [h]
  decide

/-- C10: adopting a non-null external pointer with `set(p)` on a
previously allocated buffer reports `is_allocated() == true` but
`size() == 0`: the internal `deallocate()` that precedes the adoption
resets `size_` to 0 and `set` never writes it again. -/
theorem C10_set_resets_count (s : SafePointer T) (p : Nat)
    (pm : List (Option T)) (ha : s.allocated_ = true) (hp : p ≠ 0) :
    (s.set p pm).is_allocated = true ∧ (s.set p pm).size = 0 := by
  simp [SafePointer.set, SafePointer.deallocate, SafePointer.is_allocated,
    SafePointer.size, ha, hp]

theorem C10_set_resets_count_witness :
    (SafePointer.mk 7 [some 1, some 2] true 2 : SafePointer Nat).allocated_ = true ∧
    (9 : Nat) ≠ 0 ∧
    ((SafePointer.mk 7 [some 1, some 2] true 2 : SafePointer Nat).set 9 [some 5]).is_allocated
        = true ∧
    ((SafePointer.mk 7 [some 1, some 2] true 2 : SafePointer Nat).set 9 [some 5]).size = 0 :=
  ⟨rfl, by decide,
   C10_set_resets_count (SafePointer.mk 7 [some 1, some 2] true 2) 9 [some 5] rfl (by decide)⟩
